import Mathlib

/-!
Verification of the Watch Later Feed Injector extension core:
the scraper (src/watchLaterScraper.js), the background store
(src/background.js) and the homepage injector (src/injector.js),
shallowly embedded as pure Lean functions.  Timestamps and numeric
settings are modelled as Int (JS numbers used integrally here);
possibly-missing JS values are modelled as Option; the JS logical-or
fallback chains over strings are modelled by jsOrS, which treats the
empty string as falsy exactly as JS does.
-/

namespace WLI

/-- JS string fallback: a || b where a may be undefined (none) or an
empty string, both falsy. Mirrors the chained || defaults used
throughout src/watchLaterScraper.js. -/
def jsOrS : Option String → String → String
  | some s, d => if s = "" then d else s
  | none, d => d

/-- JS array indexing arr[i] for Int index: negative or out-of-bounds
indices yield undefined (none). -/
def jsGet (l : List String) (i : Int) : Option String :=
  if i < 0 then none else l.get? i.toNat

-- Thumbnail selection, src/watchLaterScraper.js lines 80-84:
--   default: thumbnails[0]?.url || ''
--   medium : thumbnails[thumbnails.length > 1 ? 1 : 0]?.url || thumbnails[0]?.url || ''
--   high   : thumbnails[thumbnails.length - 1]?.url || thumbnails[0]?.url || ''
-- A thumbnail list is modelled as the list of its url strings.

def thumbDefault (thumbs : List String) : String :=
  jsOrS (jsGet thumbs 0) ""

def thumbMedium (thumbs : List String) : String :=
  jsOrS (jsGet thumbs (if 1 < thumbs.length then 1 else 0))
    (jsOrS (jsGet thumbs 0) "")

def thumbHigh (thumbs : List String) : String :=
  jsOrS (jsGet thumbs ((thumbs.length : Int) - 1))
    (jsOrS (jsGet thumbs 0) "")

/-- Normalized video record produced by the scraper,
src/watchLaterScraper.js lines 72-85. -/
structure Video where
  videoId : String
  title : String
  channelTitle : String
  channelId : String
  lengthText : String
  thumbDefaultUrl : String
  thumbMediumUrl : String
  thumbHighUrl : String
deriving DecidableEq, Repr

/-- Fields of a raw playlistVideoRenderer item that the scraper reads
(src/watchLaterScraper.js lines 63-85). A missing videoId is modelled
as the empty string (JS falsy); the optional nested text fields are
modelled as Option String. The thumbnail list holds the url of each
entry of videoRenderer.thumbnail.thumbnails. -/
structure PlaylistVideoRenderer where
  videoId : String
  titleRunsText : Option String
  titleSimpleText : Option String
  bylineRunsText : Option String
  bylineBrowseId : Option String
  lengthSimpleText : Option String
  thumbnails : List String
deriving DecidableEq, Repr

/-- One entry of the playlist contents array; continuation items and
ads have no playlistVideoRenderer (src/watchLaterScraper.js line 63). -/
structure ContentItem where
  playlistVideoRenderer : Option PlaylistVideoRenderer
deriving DecidableEq, Repr

/-- Construction of the video object from a renderer,
src/watchLaterScraper.js lines 71-85. -/
def parseVideo (r : PlaylistVideoRenderer) : Video :=
  { videoId := r.videoId
    title := jsOrS r.titleRunsText (jsOrS r.titleSimpleText ("Unknown Title"))
    channelTitle := jsOrS r.bylineRunsText ("Unknown Channel")
    channelId := jsOrS r.bylineBrowseId ("")
    lengthText := jsOrS r.lengthSimpleText ("")
    thumbDefaultUrl := thumbDefault r.thumbnails
    thumbMediumUrl := thumbMedium r.thumbnails
    thumbHighUrl := thumbHigh r.thumbnails }

/-- Per-item loop body of src/watchLaterScraper.js lines 62-91: skip
when the renderer or its videoId is missing, build the video, push it
when videoId and title are truthy. -/
def extractItemOpt (item : ContentItem) : Option Video :=
  match item.playlistVideoRenderer with
  | none => none
  | some r =>
    if r.videoId = "" then none
    else
      let v := parseVideo r
      if v.videoId ≠ "" ∧ v.title ≠ "" then some v else none

/-- Accumulation loop of src/watchLaterScraper.js lines 59-91: walks
the contents array in order, appending each accepted video. -/
def extractVideos : List ContentItem → List Video
  | [] => []
  | item :: rest =>
    match extractItemOpt item with
    | some v => v :: extractVideos rest
    | none => extractVideos rest

/-- Whole-function outcome of extractWatchLaterData,
src/watchLaterScraper.js lines 16-104: null (none) when no contents
array could be located via either structural path, otherwise the
extracted list (possibly empty). -/
def extractWatchLaterData (contents : Option (List ContentItem)) : Option (List Video) :=
  contents.map extractVideos

/-- Record stored by the scraper under the watchLaterData key,
src/watchLaterScraper.js lines 192-196. -/
structure ScrapeData where
  videos : List Video
  timestamp : Int
  source : String
deriving DecidableEq, Repr

/-- saveToStorage, src/watchLaterScraper.js lines 190-212: overwrites
the stored record unconditionally with the given videos and the
current time. -/
def saveToStorage (videos : List Video) (now : Int) (_store : Option ScrapeData) :
    Option ScrapeData :=
  some { videos := videos, timestamp := now, source := "scraper" }

/-- scrapeWatchLater, src/watchLaterScraper.js lines 217-230: a
successful non-empty extraction and a confirmed-empty extraction both
write through; a null extraction writes nothing. Returns the store
after the call. -/
def scrapeWatchLater (contents : Option (List ContentItem)) (now : Int)
    (store : Option ScrapeData) : Option ScrapeData :=
  match extractWatchLaterData contents with
  | some videos =>
    if 0 < videos.length then saveToStorage videos now store
    else if videos.length = 0 then saveToStorage [] now store
    else store
  | none => store

-- ===== Background store (src/background.js) =====

/-- Cache record stored under the watchLaterCache key,
src/background.js lines 203-206. -/
structure CacheEntry where
  items : List Video
  timestamp : Int
deriving DecidableEq, Repr

/-- Default cache TTL, src/background.js line 16: 20 minutes in
milliseconds. -/
def DEFAULT_CACHE_TTL : Int := 20 * 60 * 1000

/-- getCacheTTL, src/background.js lines 150-163: the stored ttl
minutes value is used only when it is a positive number (JS truthiness
plus an explicit positive check); otherwise the default applies. The
stored cacheTTL slot is modelled as Option Int. -/
def getCacheTTL (ttlStore : Option Int) : Int :=
  match ttlStore with
  | some m => if 0 < m then m * 60 * 1000 else DEFAULT_CACHE_TTL
  | none => DEFAULT_CACHE_TTL

/-- getCachedPlaylist, src/background.js lines 169-194: absent entry,
falsy timestamp, or age greater than the TTL read from the current
settings store all yield null; otherwise the cached record is
returned. -/
def getCachedPlaylist (store : Option CacheEntry) (ttlStore : Option Int) (now : Int) :
    Option CacheEntry :=
  match store with
  | none => none
  | some cached =>
    if cached.timestamp = 0 then none
    else
      let ttl := getCacheTTL ttlStore
      let age := now - cached.timestamp
      if age > ttl then none else some cached

/-- Result and post-state of one getCachedPlaylist call. The function
body (src/background.js lines 169-194) performs storage reads only,
never a storage set, so the store after the call is the store before
it. -/
def getCachedPlaylistCall (store : Option CacheEntry) (ttlStore : Option Int) (now : Int) :
    Option CacheEntry × Option CacheEntry :=
  (getCachedPlaylist store ttlStore now, store)

/-- Raw storage read of the watchLaterCache key
(chrome.storage.local.get at src/background.js line 171): returns
whatever is stored, with no freshness judgment applied. -/
def rawCacheRead (store : Option CacheEntry) : Option CacheEntry :=
  store

-- ===== Settings (src/background.js lines 18-25 and 298-320) =====

/-- Validated settings object as stored, src/background.js
lines 301-306. -/
structure Settings where
  enabled : Bool
  itemCount : Int
  cacheTTL : Int
  showEmptyState : Bool
deriving DecidableEq, Repr

/-- DEFAULT_SETTINGS, src/background.js lines 20-25. -/
def DEFAULT_SETTINGS : Settings :=
  { enabled := true, itemCount := 5, cacheTTL := 20, showEmptyState := true }

/-- Incoming (possibly partial) settings object passed to
saveSettings; absent fields are none. -/
structure SettingsIn where
  enabled : Option Bool
  itemCount : Option Int
  cacheTTL : Option Int
  showEmptyState : Option Bool
deriving DecidableEq, Repr

/-- saveSettings validation, src/background.js lines 298-320: boolean
fields pass a typeof check or fall back to the default; itemCount is
kept only when within 3..10, else replaced by the default 5; cacheTTL
kept only when within 5..60, else replaced by the default 20. An
absent numeric field fails the JS range comparison and falls to the
default. -/
def saveSettings (s : SettingsIn) : Settings :=
  { enabled :=
      match s.enabled with
      | some b => b
      | none => DEFAULT_SETTINGS.enabled
    itemCount :=
      match s.itemCount with
      | some n => if 3 ≤ n ∧ n ≤ 10 then n else DEFAULT_SETTINGS.itemCount
      | none => DEFAULT_SETTINGS.itemCount
    cacheTTL :=
      match s.cacheTTL with
      | some n => if 5 ≤ n ∧ n ≤ 60 then n else DEFAULT_SETTINGS.cacheTTL
      | none => DEFAULT_SETTINGS.cacheTTL
    showEmptyState :=
      match s.showEmptyState with
      | some b => b
      | none => DEFAULT_SETTINGS.showEmptyState }

-- ===== Runtime messaging (src/background.js lines 341-515,
-- src/watchLaterScraper.js lines 201-207, src/injector.js
-- lines 751-785) =====

/-- Shape of a chrome.runtime message as used by the scraper and the
background handler; only the fields the embedded code reads are
modelled. -/
structure RuntimeMessage where
  type : String
  count : Option Int
  settings : Option SettingsIn
deriving DecidableEq, Repr

/-- Message the scraper sends after a successful cache write,
src/watchLaterScraper.js lines 202-204. -/
def scraperUpdateMessage (videos : List Video) : RuntimeMessage :=
  { type := "WATCH_LATER_UPDATED", count := some (videos.length : Int), settings := none }

/-- Message types the background onMessage switch has a case for,
src/background.js lines 347-502; any other type reaches the default
case at lines 503-505 and is answered with an Unknown-message-type
error. -/
def bgMessageTypes : List String :=
  ["CHECK_AUTH", "GET_AUTH_TOKEN", "SIGN_IN", "SIGN_OUT", "GET_WATCH_LATER",
   "REFRESH_CACHE", "CLEAR_CACHE", "GET_SETTINGS", "SAVE_SETTINGS", "RESET_SETTINGS"]

/-- Notifications the background sends to content-script tabs via
chrome.tabs.sendMessage. In src/background.js only the SAVE_SETTINGS
branch (lines 462-473, forwarding the raw incoming settings) and the
RESET_SETTINGS branch (lines 484-495, forwarding the defaults) do so;
no branch ever sends a DATA_REFRESHED message. -/
inductive TabBroadcast where
  | settingsUpdatedRaw (s : SettingsIn)
  | settingsUpdatedDefaults
  | dataRefreshed (count : Int)
deriving DecidableEq, Repr

/-- Tab broadcasts produced by one background onMessage dispatch,
src/background.js lines 341-515. saveOk and resetOk stand for the
success of the corresponding storage writes; every branch other than
SAVE_SETTINGS and RESET_SETTINGS (including the default case that a
WATCH_LATER_UPDATED message reaches) broadcasts nothing. -/
def bgBroadcasts (msg : RuntimeMessage) (saveOk resetOk : Bool) : List TabBroadcast :=
  if msg.type = "SAVE_SETTINGS" then
    match msg.settings with
    | none => []
    | some s => if saveOk then [TabBroadcast.settingsUpdatedRaw s] else []
  else if msg.type = "RESET_SETTINGS" then
    if resetOk then [TabBroadcast.settingsUpdatedDefaults] else []
  else []

/-- Message types the injector content script reacts to,
src/injector.js lines 751-785. -/
def injectorHandledTypes : List String :=
  ["SETTINGS_UPDATED", "DATA_REFRESHED"]

-- ===== Injector rendering (src/injector.js) =====

/-- JS truthy-or fallback for the item count, src/injector.js
line 303: currentSettings?.itemCount || 5. -/
def jsItemCount (n : Int) : Int :=
  if n = 0 then 5 else n

/-- JS Array.prototype.slice(0, k) on a list: a negative end index
counts from the end of the array. -/
def jsSlice0 (k : Int) (l : List Video) : List Video :=
  if k < 0 then l.take ((l.length : Int) + k).toNat else l.take k.toNat

/-- Sort-order step of injectShelf, src/injector.js lines 292-300:
descending (the default) reverses the source order. -/
def applySortOrder (sortOrder : String) (videos : List Video) : List Video :=
  if sortOrder = "descending" then videos.reverse else videos

/-- Ordering and truncation applied by injectShelf before rendering,
src/injector.js lines 292-305. -/
def renderedVideos (sortOrder : String) (itemCount : Int) (videos : List Video) :
    List Video :=
  jsSlice0 (jsItemCount itemCount) (applySortOrder sortOrder videos)

-- ===== Shelf DOM (src/injector.js lines 325-338 and 739-746) =====

/-- Shelf element id, src/injector.js line 14. -/
def WATCH_LATER_SHELF_ID : String := "wli-watch-later-shelf"

/-- A DOM element as far as the injection routine is concerned: its id
attribute plus an opaque payload distinguishing distinct elements. -/
structure DomNode where
  id : String
  payload : String
deriving DecidableEq, Repr

/-- document.getElementById(id).remove(): removes the first element
with the given id in document order, if any (src/injector.js
lines 327-330). -/
def removeById (targetId : String) : List DomNode → List DomNode
  | [] => []
  | n :: rest => if n.id = targetId then rest else n :: removeById targetId rest

/-- insertShelfSafely, src/injector.js lines 325-338: removes any
existing shelf element, then inserts the new shelf as the first child
of the feed container (modelled as the child list). -/
def insertShelfSafely (children : List DomNode) (shelf : DomNode) : List DomNode :=
  shelf :: removeById WATCH_LATER_SHELF_ID children

/-- removeShelf, src/injector.js lines 739-746. -/
def removeShelf (children : List DomNode) : List DomNode :=
  removeById WATCH_LATER_SHELF_ID children

-- ===== Spec-side definitions (for comparison with the code) =====

/-- Spec wording for the low-resolution thumbnail: the first available
URL. -/
def specThumbLow : List String → String
  | [] => ""
  | u :: _ => u

/-- Spec wording for the mid-resolution thumbnail: the second URL, or
the first if only one exists. -/
def specThumbMid : List String → String
  | [] => ""
  | [u] => u
  | _ :: u :: _ => u

/-- Spec wording for the high-resolution thumbnail: the last available
URL. -/
def specThumbHigh (l : List String) : String :=
  (l.getLast?).getD ("")

/-- Identifier of a source item that survives the scraper guards of
src/watchLaterScraper.js lines 63-68: present renderer with a truthy
videoId. Used to state which occurrences reach the output. -/
def wellFormedId (item : ContentItem) : Option String :=
  match item.playlistVideoRenderer with
  | none => none
  | some r => if r.videoId = "" then none else some r.videoId

-- ===== Concrete inputs used by witnesses and counterexamples =====

/-- Settings input carrying only an itemCount. -/
def inItemCount (n : Int) : SettingsIn :=
  ⟨none, some n, none, none⟩

/-- Minimal video value distinguished by its id. -/
def sampleVideo (s : String) : Video :=
  ⟨s, "t", "c", "", "", "", "", ""⟩

/-- Renderer with the given id and a plain title. -/
def sampleRenderer (s : String) : PlaylistVideoRenderer :=
  ⟨s, some ("T"), none, none, none, none, []⟩

/-- Renderer with the given id and no title fields at all. -/
def noTitleRenderer (s : String) : PlaylistVideoRenderer :=
  ⟨s, none, none, none, none, none, []⟩

-- ===== Helper lemmas =====

theorem jsOrS_ne_empty (o : Option String) (d : String) (hd : d ≠ "") :
    jsOrS o d ≠ "" := by
  cases o with
  | none => simpa [jsOrS] using hd
  | some s =>
    by_cases hs : s = "" <;> simp [jsOrS, hs, hd]

theorem parseVideo_videoId (r : PlaylistVideoRenderer) :
    (parseVideo r).videoId = r.videoId := rfl

theorem parseVideo_title_ne_empty (r : PlaylistVideoRenderer) :
    (parseVideo r).title ≠ "" :=
  jsOrS_ne_empty _ _ (jsOrS_ne_empty _ _ (by decide))

theorem extractItemOpt_none_of_noRenderer (item : ContentItem)
    (h : item.playlistVideoRenderer = none) : extractItemOpt item = none := by
  simp [extractItemOpt, h]

theorem extractItemOpt_none_of_emptyId (item : ContentItem) (r : PlaylistVideoRenderer)
    (h : item.playlistVideoRenderer = some r) (hid : r.videoId = "") :
    extractItemOpt item = none := by
  simp [extractItemOpt, h, hid]

theorem extractItemOpt_some (item : ContentItem) (r : PlaylistVideoRenderer)
    (h : item.playlistVideoRenderer = some r) (hid : r.videoId ≠ "") :
    extractItemOpt item = some (parseVideo r) := by
  simp only [extractItemOpt, h]
  rw [if_neg hid, if_pos]
  exact ⟨by simpa [parseVideo_videoId] using hid, parseVideo_title_ne_empty r⟩

theorem extractVideos_cons (item : ContentItem) (rest : List ContentItem) :
    extractVideos (item :: rest) =
      match extractItemOpt item with
      | some v => v :: extractVideos rest
      | none => extractVideos rest := rfl

theorem countP_removeById (targetId : String) (l : List DomNode) :
    (removeById targetId l).countP (fun n => n.id == targetId) =
      l.countP (fun n => n.id == targetId) - 1 := by
  induction l with
  | nil => simp [removeById]
  | cons n rest ih =>
    by_cases hn : n.id = targetId
    · simp [removeById, hn, List.countP_cons]
    · simp only [removeById, if_neg hn, List.countP_cons, ih]
      simp [hn]

theorem mem_of_getLastSome :
    ∀ (l : List String) (u : String), l.getLast? = some u → u ∈ l := by
  intro l
  induction l with
  | nil => intro u h; simp at h
  | cons a t ih =>
    intro u h
    cases t with
    | nil =>
      simp [List.getLast?] at h
      simp [h]
    | cons b t2 =>
      rw [List.getLast?_cons_cons] at h
      exact List.mem_cons_of_mem a (ih u h)

theorem get?_cons_length (t : List String) :
    ∀ a : String, (a :: t).get? t.length = (a :: t).getLast? := by
  induction t with
  | nil => intro a; rfl
  | cons b t2 ih =>
    intro a
    rw [List.getLast?_cons_cons, ← ih b]
    rfl

theorem jsGet_last (l : List String) :
    jsGet l ((l.length : Int) - 1) = l.getLast? := by
  cases l with
  | nil => rfl
  | cons a t =>
    have hlen : ((a :: t).length : Int) - 1 = (t.length : Int) := by
      simp [List.length_cons]
    rw [hlen]
    have hnn : ¬ ((t.length : Int) < 0) := by omega
    simp only [jsGet, if_neg hnn, Int.toNat_natCast]
    exact get?_cons_length t a

-- ===== Claim theorems =====

/-- Claim C1: when extraction fails (null), scrapeWatchLater leaves
the stored cache record untouched, whatever it was; when extraction
yields a confirmed-empty list, scrapeWatchLater writes the empty list
through, overwriting any prior record with a fresh timestamp. -/
theorem scrape_null_vs_empty (store : Option ScrapeData) (now : Int) :
    scrapeWatchLater none now store = store
    ∧ scrapeWatchLater (some []) now store =
        some { videos := [], timestamp := now, source := "scraper" } :=
  ⟨rfl, rfl⟩

/-- Claim C2, counterexample: the setter does not clamp out-of-range
itemCount values to the nearest bound; itemCount 99 is stored as the
default 5, not 10, and itemCount 0 is stored as 5, not 3. -/
theorem saveSettings_no_clamp :
    (saveSettings (inItemCount 99)).itemCount = 5
    ∧ ((saveSettings (inItemCount 99)).itemCount == 10) = false
    ∧ (saveSettings (inItemCount 0)).itemCount = 5
    ∧ ((saveSettings (inItemCount 0)).itemCount == 3) = false := by
  decide

/-- Claim C2, amended: for every (possibly partial) settings input,
the stored result has itemCount in 3..10 and cacheTTL in 5..60;
out-of-range numeric inputs are replaced by the defaults (itemCount 5,
cacheTTL 20) rather than clamped, as witnessed by inputs 99 and 0 both
storing itemCount 5. -/
theorem saveSettings_bounds (s : SettingsIn) :
    (3 ≤ (saveSettings s).itemCount ∧ (saveSettings s).itemCount ≤ 10
      ∧ 5 ≤ (saveSettings s).cacheTTL ∧ (saveSettings s).cacheTTL ≤ 60)
    ∧ (saveSettings (inItemCount 99)).itemCount = DEFAULT_SETTINGS.itemCount
    ∧ (saveSettings (inItemCount 0)).itemCount = DEFAULT_SETTINGS.itemCount := by
  refine ⟨?_, by decide, by decide⟩
  simp only [saveSettings]
  cases hic : s.itemCount with
  | none =>
    cases hct : s.cacheTTL with
    | none => refine ⟨by decide, by decide, by decide, by decide⟩
    | some m =>
      by_cases hm : 5 ≤ m ∧ m ≤ 60 <;>
        simp [hm, DEFAULT_SETTINGS]
  | some n =>
    cases hct : s.cacheTTL with
    | none =>
      by_cases hn : 3 ≤ n ∧ n ≤ 10 <;>
        simp [hn, DEFAULT_SETTINGS]
    | some m =>
      by_cases hn : 3 ≤ n ∧ n ≤ 10 <;> by_cases hm : 5 ≤ m ∧ m ≤ 60 <;>
        simp [hn, hm, DEFAULT_SETTINGS]

/-- Claim C3: for a present cache record with a truthy capturedAt
timestamp, getCachedPlaylist judges it fresh (returns it) exactly when
now minus capturedAt is at most the TTL computed by getCacheTTL from
the settings store passed at call time; and the judgment is monotone
in that TTL, so a larger effective TTL can only keep a fresh entry
fresh, never turn it stale. -/
theorem cache_freshness (c : CacheEntry) (now : Int) (h : c.timestamp ≠ 0) :
    (∀ ts : Option Int,
        getCachedPlaylist (some c) ts now = some c ↔
          now - c.timestamp ≤ getCacheTTL ts)
    ∧ (∀ ts1 ts2 : Option Int, getCacheTTL ts1 ≤ getCacheTTL ts2 →
        getCachedPlaylist (some c) ts1 now = some c →
        getCachedPlaylist (some c) ts2 now = some c) := by
  have key : ∀ ts : Option Int,
      getCachedPlaylist (some c) ts now = some c ↔
        now - c.timestamp ≤ getCacheTTL ts := by
    intro ts
    simp only [getCachedPlaylist, if_neg h]
    by_cases hage : now - c.timestamp > getCacheTTL ts
    · rw [if_pos hage]
      constructor
      · intro hcontra; exact absurd hcontra (by simp)
      · intro hle; omega
    · rw [if_neg hage]
      constructor
      · intro _; omega
      · intro _; rfl
  refine ⟨key, ?_⟩
  intro ts1 ts2 hmono h1
  exact (key ts2).mpr (le_trans ((key ts1).mp h1) hmono)

/-- Claim C3 witness: a concrete fresh entry under a 20-minute TTL. -/
theorem cache_freshness_witness :
    ((1 : Int) ≠ 0)
    ∧ (getCachedPlaylist (some ⟨[], 1⟩) (some 20) 1200001 = some ⟨[], 1⟩ ↔
        (1200001 : Int) - 1 ≤ getCacheTTL (some 20)) :=
  ⟨by decide, (cache_freshness ⟨[], 1⟩ 1200001 (by decide)).1 (some 20)⟩

/-- Claim C4: under the default descending sort order and any positive
item count (the validated settings range is 3..10), injectShelf
renders exactly the reverse of the source order truncated to the item
count; the displayCount=3, five-record instance giving source indices
4, 3, 2 is in the witness. -/
theorem injectShelf_ordering (videos : List Video) (n : Int) (hn : 0 < n) :
    renderedVideos ("descending") n videos = (videos.reverse).take n.toNat := by
  have hne : n ≠ 0 := by omega
  have hnlt : ¬ (n < 0) := by omega
  simp [renderedVideos, applySortOrder, jsItemCount, jsSlice0, hne, hnlt]

/-- Claim C4 witness: displayCount 3 over five cached records renders
exactly the records at source indices 4, 3, 2. -/
theorem injectShelf_ordering_witness :
    (0 : Int) < 3
    ∧ renderedVideos ("descending") 3
        [sampleVideo ("v0"), sampleVideo ("v1"), sampleVideo ("v2"),
         sampleVideo ("v3"), sampleVideo ("v4")] =
      [sampleVideo ("v4"), sampleVideo ("v3"), sampleVideo ("v2")] := by
  refine ⟨by decide, ?_⟩
  rw [injectShelf_ordering
    [sampleVideo ("v0"), sampleVideo ("v1"), sampleVideo ("v2"),
     sampleVideo ("v3"), sampleVideo ("v4")] 3 (by decide)]
  decide

/-- Claim C5, counterexample: the extractor performs no deduplication;
two source items with the same id yield two output records with that
id, so the output does not contain each id exactly once. -/
theorem extract_duplicate_ids :
    (extractVideos [⟨some (sampleRenderer ("a"))⟩, ⟨some (sampleRenderer ("a"))⟩]).map
        (fun v => v.videoId) = [("a"), ("a")]
    ∧ ((extractVideos [⟨some (sampleRenderer ("a"))⟩,
          ⟨some (sampleRenderer ("a"))⟩]).countP (fun v => v.videoId == ("a"))) = 2 := by
  decide

/-- Claim C5, amended: the extractor keeps every well-formed
occurrence in source order without deduplicating: the ids of the
output are exactly the ids of the source items that pass the
well-formedness guard, in order and with multiplicity. -/
theorem extract_keeps_all_occurrences (contents : List ContentItem) :
    (extractVideos contents).map (fun v => v.videoId) =
      contents.filterMap wellFormedId := by
  induction contents with
  | nil => rfl
  | cons item rest ih =>
    cases hit : item.playlistVideoRenderer with
    | none =>
      rw [extractVideos_cons, extractItemOpt_none_of_noRenderer item hit]
      simpa [wellFormedId, hit] using ih
    | some r =>
      by_cases hid : r.videoId = ""
      · rw [extractVideos_cons, extractItemOpt_none_of_emptyId item r hit hid]
        simpa [wellFormedId, hit, hid] using ih
      · rw [extractVideos_cons, extractItemOpt_some item r hit hid]
        simpa [wellFormedId, hit, hid, parseVideo_videoId] using ih

/-- Claim C6: the message type the scraper sends after a cache write
has no case in the background onMessage switch, so it falls to the
default branch; no dispatch of any message ever produces a
DATA_REFRESHED tab broadcast, even though the injector content script
listens for exactly that type. The relay the claim describes does not
exist in the code. -/
theorem watchLaterUpdated_not_relayed (videos : List Video) (msg : RuntimeMessage)
    (saveOk resetOk : Bool) :
    (bgMessageTypes.contains (scraperUpdateMessage videos).type) = false
    ∧ bgBroadcasts (scraperUpdateMessage videos) saveOk resetOk = []
    ∧ ((bgBroadcasts msg saveOk resetOk).countP
        (fun b => match b with
          | TabBroadcast.dataRefreshed _ => true
          | _ => false)) = 0
    ∧ (injectorHandledTypes.contains ("DATA_REFRESHED")) = true := by
  have ht : (scraperUpdateMessage videos).type = "WATCH_LATER_UPDATED" := rfl
  refine ⟨?_, ?_, ?_, by decide⟩
  · rw [ht]; decide
  · simp only [bgBroadcasts, ht]
    rw [if_neg (by decide), if_neg (by decide)]
  simp only [bgBroadcasts]
  by_cases h1 : msg.type = "SAVE_SETTINGS"
  · rw [if_pos h1]
    cases msg.settings with
    | none => rfl
    | some s => cases saveOk <;> simp [List.countP_cons]
  · rw [if_neg h1]
    by_cases h2 : msg.type = "RESET_SETTINGS"
    · rw [if_pos h2]
      cases resetOk <;> simp [List.countP_cons]
    · rw [if_neg h2]
      rfl

/-- Claim C7: a present but stale cache entry (age strictly above the
effective TTL) is judged no-data by the freshness-sensitive read, yet
the call writes nothing — the store still holds the entry afterwards —
and the raw storage read still yields the stored records. -/
theorem stale_cache_still_readable (c : CacheEntry) (ttlStore : Option Int) (now : Int)
    (hts : c.timestamp ≠ 0)
    (hstale : getCacheTTL ttlStore < now - c.timestamp) :
    (getCachedPlaylistCall (some c) ttlStore now).1 = none
    ∧ (getCachedPlaylistCall (some c) ttlStore now).2 = some c
    ∧ rawCacheRead (getCachedPlaylistCall (some c) ttlStore now).2 = some c := by
  refine ⟨?_, rfl, rfl⟩
  simp only [getCachedPlaylistCall, getCachedPlaylist, if_neg hts]
  rw [if_pos (by omega)]

/-- Claim C7 witness: a record captured 25 minutes before now under a
20-minute TTL (end-to-end scenario B of the spec). -/
theorem stale_cache_still_readable_witness :
    ((1 : Int) ≠ 0 ∧ getCacheTTL (some 20) < (1500001 : Int) - 1)
    ∧ ((getCachedPlaylistCall (some ⟨[sampleVideo ("s")], 1⟩) (some 20) 1500001).1 = none
      ∧ (getCachedPlaylistCall (some ⟨[sampleVideo ("s")], 1⟩) (some 20) 1500001).2 =
          some ⟨[sampleVideo ("s")], 1⟩
      ∧ rawCacheRead
          (getCachedPlaylistCall (some ⟨[sampleVideo ("s")], 1⟩) (some 20) 1500001).2 =
          some ⟨[sampleVideo ("s")], 1⟩) :=
  ⟨⟨by decide, by decide⟩,
    stale_cache_still_readable ⟨[sampleVideo ("s")], 1⟩ (some 20) 1500001
      (by decide) (by decide)⟩

/-- Claim C8, counterexample: a source item that has a stable id but
no title at all is not dropped; it is kept with the placeholder title,
so its fields do appear in the output. -/
theorem missing_title_item_kept :
    (extractVideos [⟨some (noTitleRenderer ("a"))⟩]).length = 1
    ∧ (extractVideos [⟨some (noTitleRenderer ("a"))⟩]).map (fun v => v.title) =
        [("Unknown Title")] := by
  decide

/-- Claim C8, amended: an item whose renderer or stable identifier is
missing is dropped silently and never prevents extraction of the
remaining items, while an item missing only its title fields is kept
with the placeholder title Unknown Title. -/
theorem extractor_drop_policy
    (itNone : ContentItem) (hNone : itNone.playlistVideoRenderer = none)
    (r1 : PlaylistVideoRenderer) (it1 : ContentItem)
    (h1 : it1.playlistVideoRenderer = some r1) (hr1 : r1.videoId = "")
    (r2 : PlaylistVideoRenderer) (it2 : ContentItem)
    (h2 : it2.playlistVideoRenderer = some r2) (hv2 : r2.videoId ≠ "")
    (ht2a : r2.titleRunsText = none) (ht2b : r2.titleSimpleText = none)
    (rest : List ContentItem) :
    extractVideos (itNone :: rest) = extractVideos rest
    ∧ extractVideos (it1 :: rest) = extractVideos rest
    ∧ extractVideos (it2 :: rest) = parseVideo r2 :: extractVideos rest
    ∧ (parseVideo r2).title = "Unknown Title" := by
  refine ⟨?_, ?_, ?_, ?_⟩
  · rw [extractVideos_cons, extractItemOpt_none_of_noRenderer itNone hNone]
  · rw [extractVideos_cons, extractItemOpt_none_of_emptyId it1 r1 h1 hr1]
  · rw [extractVideos_cons, extractItemOpt_some it2 r2 h2 hv2]
  · simp [parseVideo, ht2a, ht2b, jsOrS]

/-- Claim C8 witness: a concrete batch holding a renderer-less item,
an id-less item, and a titleless item around nothing else. -/
theorem extractor_drop_policy_witness :
    extractVideos [⟨none⟩] = extractVideos []
    ∧ extractVideos [⟨some (noTitleRenderer (""))⟩] = extractVideos []
    ∧ extractVideos [⟨some (noTitleRenderer ("a"))⟩] =
        parseVideo (noTitleRenderer ("a")) :: extractVideos []
    ∧ (parseVideo (noTitleRenderer ("a"))).title = "Unknown Title" :=
  extractor_drop_policy ⟨none⟩ rfl (noTitleRenderer ("")) ⟨some (noTitleRenderer (""))⟩
    rfl rfl (noTitleRenderer ("a")) ⟨some (noTitleRenderer ("a"))⟩ rfl
    (by decide) rfl rfl []

/-- Claim C9: on any thumbnail list whose URLs are nonempty strings,
the scraper selects the first URL as the default (low) thumbnail, the
second — or the first when only one exists — as the medium one, and
the last as the high one; the selection is total, yielding the empty
string on a length-0 list rather than failing. -/
theorem thumbnail_selection (thumbs : List String) (h : ∀ u ∈ thumbs, u ≠ "") :
    (thumbDefault thumbs = specThumbLow thumbs
      ∧ thumbMedium thumbs = specThumbMid thumbs
      ∧ thumbHigh thumbs = specThumbHigh thumbs)
    ∧ (thumbDefault [] = "" ∧ thumbMedium [] = "" ∧ thumbHigh [] = "") := by
  refine ⟨?_, by decide, by decide, by decide⟩
  match thumbs with
  | [] => exact ⟨rfl, rfl, rfl⟩
  | a :: t =>
    have ha : a ≠ "" := h a (List.mem_cons_self a t)
    have hlow : thumbDefault (a :: t) = specThumbLow (a :: t) := by
      simp [thumbDefault, jsGet, jsOrS, ha, specThumbLow]
    have hhigh : thumbHigh (a :: t) = specThumbHigh (a :: t) := by
      obtain ⟨u, hu⟩ : ∃ u, (a :: t).getLast? = some u := by
        cases t with
        | nil => exact ⟨a, rfl⟩
        | cons b t2 =>
          rw [List.getLast?_cons_cons]
          cases hbt : (b :: t2).getLast? with
          | none => simp [List.getLast?_eq_none_iff] at hbt
          | some u => exact ⟨u, rfl⟩
      have humem : u ∈ a :: t := mem_of_getLastSome (a :: t) u hu
      have hune : u ≠ "" := h u humem
      rw [thumbHigh, jsGet_last, hu, specThumbHigh, hu]
      simp [jsOrS, hune]
    cases t with
    | nil =>
      refine ⟨hlow, ?_, hhigh⟩
      simp [thumbMedium, jsGet, jsOrS, ha, specThumbMid]
    | cons b t2 =>
      have hb : b ≠ "" := h b (List.mem_cons_of_mem a (List.mem_cons_self b t2))
      refine ⟨hlow, ?_, hhigh⟩
      have hlen : 1 < (a :: b :: t2).length := by simp
      simp [thumbMedium, hlen, jsGet, jsOrS, hb, specThumbMid]

/-- Claim C9 witness: a three-URL list selects first, second and last;
totality on the empty list is part of the applied statement. -/
theorem thumbnail_selection_witness :
    (∀ u ∈ [("a"), ("b"), ("c")], u ≠ "")
    ∧ ((thumbDefault [("a"), ("b"), ("c")] = specThumbLow [("a"), ("b"), ("c")]
      ∧ thumbMedium [("a"), ("b"), ("c")] = specThumbMid [("a"), ("b"), ("c")]
      ∧ thumbHigh [("a"), ("b"), ("c")] = specThumbHigh [("a"), ("b"), ("c")])
    ∧ (thumbDefault [] = "" ∧ thumbMedium [] = "" ∧ thumbHigh [] = "")) :=
  ⟨by decide, thumbnail_selection [("a"), ("b"), ("c")] (by decide)⟩

/-- Claim C10: provided the container held at most one shelf element
before the call (the state every code path maintains), after
insertShelfSafely the container holds exactly one element carrying the
extension shelf id, namely the newly inserted shelf, and it is the
first child. -/
theorem insertShelfSafely_unique (children : List DomNode) (shelf : DomNode)
    (hid : shelf.id = WATCH_LATER_SHELF_ID)
    (hinv : children.countP (fun n => n.id == WATCH_LATER_SHELF_ID) ≤ 1) :
    ((insertShelfSafely children shelf).countP
        (fun n => n.id == WATCH_LATER_SHELF_ID)) = 1
    ∧ (insertShelfSafely children shelf).head? = some shelf := by
  refine ⟨?_, rfl⟩
  simp only [insertShelfSafely, List.countP_cons, countP_removeById]
  simp [hid]
  omega

/-- Claim C10 witness: injecting over a container that already holds
one stale shelf plus feed content leaves exactly one shelf, in front. -/
theorem insertShelfSafely_unique_witness :
    ((⟨WATCH_LATER_SHELF_ID, "new"⟩ : DomNode).id = WATCH_LATER_SHELF_ID
      ∧ ([⟨WATCH_LATER_SHELF_ID, "old"⟩, ⟨"feed", "x"⟩] : List DomNode).countP
          (fun n => n.id == WATCH_LATER_SHELF_ID) ≤ 1)
    ∧ (((insertShelfSafely [⟨WATCH_LATER_SHELF_ID, "old"⟩, ⟨"feed", "x"⟩]
          ⟨WATCH_LATER_SHELF_ID, "new"⟩).countP
          (fun n => n.id == WATCH_LATER_SHELF_ID)) = 1
      ∧ (insertShelfSafely [⟨WATCH_LATER_SHELF_ID, "old"⟩, ⟨"feed", "x"⟩]
          ⟨WATCH_LATER_SHELF_ID, "new"⟩).head? =
            some ⟨WATCH_LATER_SHELF_ID, "new"⟩) :=
  ⟨⟨rfl, by decide⟩,
    insertShelfSafely_unique [⟨WATCH_LATER_SHELF_ID, "old"⟩, ⟨"feed", "x"⟩]
      ⟨WATCH_LATER_SHELF_ID, "new"⟩ rfl (by decide)⟩

end WLI
